import Mathlib

/-!
Verification development for the moba-mcp repository.

Shallow embedding of the two core components:
- the Configuration Resolver (src/moba_mcp/config.py): the before-model
  validator parse_mcp_server_url, the per-field validators, settings
  construction, and the two path-resolution helpers;
- the Fixture Generator (scripts/create_sample_db.py): an explicit model of
  the SQLite store (tables with an auto-incrementing integer primary key and
  no other uniqueness constraint, as declared by the CREATE TABLE statements),
  the seed data, and the emitted metadata document.

Machine integers are modelled as Int/Nat; Python dictionaries as association
lists preserving insertion order; fallible steps return Except.
-/

deriving instance DecidableEq for Except

namespace Moba

/-! ### Python string case helpers (ASCII, matching the inputs in scope) -/

def pyUpper (s : String) : String :=
  String.mk (s.data.map Char.toUpper)

def pyLower (s : String) : String :=
  String.mk (s.data.map Char.toLower)

/-! ### Model of urllib.parse.urlparse, restricted to what config.py reads

parse_mcp_server_url only reads parsed.hostname and parsed.port, so the
model covers scheme splitting, netloc extraction, and the hostname/port
properties.  The port property of urllib raises ValueError when the port
text is not an integer or is outside 0..65535; this is modelled as
Except.error.  Python int() additionally tolerates surrounding whitespace
and inner underscores; those inputs are not modelled since no claim
depends on them. -/

def splitOnColon : List Char → Option (List Char × List Char)
  | [] => none
  | c :: cs =>
    if c = ':' then some ([], cs)
    else
      match splitOnColon cs with
      | some (a, b) => some (c :: a, b)
      | none => none

def isSchemeTailChar (c : Char) : Bool :=
  c.isAlpha || c.isDigit || c = '+' || c = '-' || c = '.'

/-- urlsplit: a scheme is stripped when the text before the first colon is
nonempty, starts with an ASCII letter, and consists of scheme characters. -/
def stripScheme (u : List Char) : List Char :=
  match splitOnColon u with
  | some (before, after) =>
    match before with
    | [] => u
    | c0 :: rest => if c0.isAlpha && (c0 :: rest).all isSchemeTailChar then after else u
  | none => u

def netlocDelim (c : Char) : Bool :=
  c = '/' || c = '?' || c = '#'

def takeUntilDelim : List Char → List Char
  | [] => []
  | c :: cs => if netlocDelim c then [] else c :: takeUntilDelim cs

/-- urlsplit: the netloc is the text between a leading double slash (after
any scheme) and the next slash, question mark, or hash; empty otherwise. -/
def extractNetloc (url : String) : String :=
  match stripScheme url.data with
  | '/' :: '/' :: t => String.mk (takeUntilDelim t)
  | _ => ""

/-- rpartition on the at-sign: everything after the last at-sign, or the
whole text when there is none (userinfo stripping). -/
def afterLastAt (l : List Char) : List Char :=
  (l.reverse.takeWhile (fun c => c ≠ '@')).reverse

def splitFirst (sep : Char) : List Char → Option (List Char × List Char)
  | [] => none
  | c :: cs =>
    if c = sep then some ([], cs)
    else (splitFirst sep cs).map (fun p => (c :: p.1, p.2))

/-- The _hostinfo helper of urllib: raw hostname text and raw port text
(none when the port text is empty), including the bracketed IPv6 branch. -/
def hostPortRaw (netloc : String) : List Char × Option (List Char) :=
  let hostinfo := afterLastAt netloc.data
  let hp : List Char × List Char :=
    match splitFirst '[' hostinfo with
    | some (_, bracketed) =>
      match splitFirst ']' bracketed with
      | some (hn, rest) =>
        match splitFirst ':' rest with
        | some (_, p) => (hn, p)
        | none => (hn, [])
      | none => (bracketed, [])
    | none =>
      match splitFirst ':' hostinfo with
      | some (hn, p) => (hn, p)
      | none => (hostinfo, [])
  (hp.1, if hp.2 = [] then none else some hp.2)

/-- The hostname property: none when empty, otherwise lowercased. -/
def pyHostname (netloc : String) : Option String :=
  let hn := (hostPortRaw netloc).1
  if hn = [] then none else some (pyLower (String.mk hn))

def digitsVal (ds : List Char) : Int :=
  ds.foldl (fun a c => a * 10 + Int.ofNat (c.toNat - 48)) 0

/-- int(text, 10): an optional sign followed by at least one digit. -/
def pyParseInt (l : List Char) : Option Int :=
  match l with
  | '+' :: ds => if ds ≠ [] ∧ ds.all Char.isDigit then some (digitsVal ds) else none
  | '-' :: ds => if ds ≠ [] ∧ ds.all Char.isDigit then some (-(digitsVal ds)) else none
  | ds => if ds ≠ [] ∧ ds.all Char.isDigit then some (digitsVal ds) else none

/-- The port property: none when no port text, ValueError (modelled as
Except.error) when the text is not an integer in 0..65535. -/
def pyPort (netloc : String) : Except Unit (Option Nat) :=
  match (hostPortRaw netloc).2 with
  | none => Except.ok none
  | some ps =>
    match pyParseInt ps with
    | none => Except.error ()
    | some p => if 0 ≤ p ∧ p ≤ 65535 then Except.ok (some p.toNat) else Except.error ()

/-! ### The values mapping fed to the before-model validator

Python dict semantics: updating an existing key keeps its position, a new
key is appended; get returns none when absent. -/

inductive PyVal where
  | s : String → PyVal
  | i : Int → PyVal
deriving DecidableEq, Repr

abbrev Values := List (String × PyVal)

def lookupVal : Values → String → Option PyVal
  | [], _ => none
  | p :: rest, k => if p.1 = k then some p.2 else lookupVal rest k

def setVal : Values → String → PyVal → Values
  | [], k, v => [(k, v)]
  | p :: rest, k, v => if p.1 = k then (k, v) :: rest else p :: setVal rest k v

/-- Python truthiness for the values in scope: empty string and zero are
falsy. -/
def pyTruthy : PyVal → Bool
  | .s u => u ≠ ""
  | .i n => n ≠ 0

/-- Python `a or b` over optional values: keeps a when truthy. -/
def pyOr (a b : Option PyVal) : Option PyVal :=
  match a with
  | some v => if pyTruthy v then some v else b
  | none => b

/-- The process environment: os.getenv. -/
abbrev Env := String → Option String

def noEnv : Env := fun _ => none

/-- values.get(MCP_SERVER_URL) or values.get(mcp_server_url) or
os.getenv(MCP_SERVER_URL), with Python or-chaining. -/
def mcpUrlValue (vs : Values) (env : Env) : Option PyVal :=
  pyOr (lookupVal vs "MCP_SERVER_URL")
    (pyOr (lookupVal vs "mcp_server_url") ((env "MCP_SERVER_URL").map PyVal.s))

/-- The body of the try block of parse_mcp_server_url: the host is written
as soon as the hostname is truthy; reading parsed.port may then raise,
which the surrounding except swallows after logging a warning, leaving the
values as mutated so far.  A port of 0 is falsy and is not applied. -/
def applyUrl (vs : Values) (url : String) : Values :=
  let nl := extractNetloc url
  let vs1 :=
    match pyHostname nl with
    | some h => setVal vs "host" (PyVal.s h)
    | none => vs
  match pyPort nl with
  | Except.error _ => vs1
  | Except.ok none => vs1
  | Except.ok (some p) => if p ≠ 0 then setVal vs1 "port" (PyVal.i (Int.ofNat p)) else vs1

/-- parse_mcp_server_url (config.py lines 60-77).  A truthy non-string value
would make urlparse raise TypeError inside the try block, which is caught,
leaving the values unchanged. -/
def parse_mcp_server_url (vs : Values) (env : Env) : Values :=
  match mcpUrlValue vs env with
  | none => vs
  | some v =>
    if pyTruthy v then
      match v with
      | PyVal.s url => applyUrl vs url
      | PyVal.i _ => vs
    else vs

/-! ### Field validators (config.py lines 116-172) -/

def validLogLevels : List String := ["DEBUG", "INFO", "WARNING", "ERROR", "CRITICAL"]

def validate_log_level (v : String) : Except String String :=
  if pyUpper v ∈ validLogLevels then Except.ok (pyUpper v)
  else Except.error "log_level must be one of DEBUG, INFO, WARNING, ERROR, CRITICAL"

def validate_database_path (v : String) : Except String String :=
  if v = "" then Except.error "database_path cannot be empty" else Except.ok v

def validate_metadata_path (v : String) : Except String String :=
  if v = "" then Except.error "metadata_path cannot be empty" else Except.ok v

def validate_max_query_length (v : Int) : Except String Int :=
  if v ≤ 0 then Except.error "max_query_length must be positive" else Except.ok v

def validate_max_result_rows (v : Int) : Except String Int :=
  if v ≤ 0 then Except.error "max_result_rows must be positive" else Except.ok v

def validTransports : List String := ["stdio", "sse", "streamable-http"]

def validate_transport (v : String) : Except String String :=
  if v ∈ validTransports then Except.ok v
  else Except.error "transport must be one of stdio, sse, streamable-http"

def validate_port (v : Int) : Except String Int :=
  if 1 ≤ v ∧ v ≤ 65535 then Except.ok v
  else Except.error "port must be between 1 and 65535"

/-! ### Settings construction

A validation error names the offending field. -/

structure VErr where
  field : String
  msg : String
deriving DecidableEq, Repr

/-- Read a string field from the values mapping, falling back to the field
default; pydantic rejects a non-string input for a str field. -/
def resolveStrRaw (vs : Values) (k default : String) : Except VErr String :=
  match lookupVal vs k with
  | none => Except.ok default
  | some (PyVal.s s) => Except.ok s
  | some (PyVal.i _) => Except.error ⟨k, "input should be a valid string"⟩

/-- Read an int field, with pydantic lax coercion from integer text. -/
def resolveIntRaw (vs : Values) (k : String) (default : Int) : Except VErr Int :=
  match lookupVal vs k with
  | none => Except.ok default
  | some (PyVal.i n) => Except.ok n
  | some (PyVal.s s) =>
    match pyParseInt s.data with
    | some n => Except.ok n
    | none => Except.error ⟨k, "input should be a valid integer"⟩

def pyBoolOfString (s : String) : Option Bool :=
  let l := pyLower s
  if l ∈ ["true", "t", "yes", "y", "on", "1"] then some true
  else if l ∈ ["false", "f", "no", "n", "off", "0"] then some false
  else none

/-- Read a bool field, with pydantic lax coercion from 0/1 and the usual
boolean words. -/
def resolveBoolRaw (vs : Values) (k : String) (default : Bool) : Except VErr Bool :=
  match lookupVal vs k with
  | none => Except.ok default
  | some (PyVal.i n) =>
    if n = 0 then Except.ok false
    else if n = 1 then Except.ok true
    else Except.error ⟨k, "input should be a valid boolean"⟩
  | some (PyVal.s s) =>
    match pyBoolOfString s with
    | some b => Except.ok b
    | none => Except.error ⟨k, "input should be a valid boolean"⟩

/-- Run a field validator on the raw field value, tagging a validation
failure with the field name (as pydantic does). -/
def withValidator (raw : Except VErr α) (k : String) (f : α → Except String β) :
    Except VErr β :=
  match raw with
  | Except.error e => Except.error e
  | Except.ok a => (f a).mapError (VErr.mk k)

def resolveDatabasePath (vs : Values) : Except VErr String :=
  withValidator (resolveStrRaw vs "database_path" "test_data/sample.db")
    "database_path" validate_database_path

def resolveMetadataPath (vs : Values) : Except VErr String :=
  withValidator (resolveStrRaw vs "metadata_path" "resources/metadata.json")
    "metadata_path" validate_metadata_path

def resolveServerName (vs : Values) : Except VErr String :=
  resolveStrRaw vs "server_name" "moba-mcp"

def resolveServerVersion (vs : Values) : Except VErr String :=
  resolveStrRaw vs "server_version" "0.1.0"

def resolveHost (vs : Values) : Except VErr String :=
  resolveStrRaw vs "host" "localhost"

def resolvePort (vs : Values) : Except VErr Int :=
  withValidator (resolveIntRaw vs "port" 8000) "port" validate_port

def resolveTransport (vs : Values) : Except VErr String :=
  withValidator (resolveStrRaw vs "transport" "stdio") "transport" validate_transport

def resolveStatelessHttp (vs : Values) : Except VErr Bool :=
  resolveBoolRaw vs "stateless_http" false

def resolveJsonResponse (vs : Values) : Except VErr Bool :=
  resolveBoolRaw vs "json_response" false

def resolveLogLevel (vs : Values) : Except VErr String :=
  withValidator (resolveStrRaw vs "log_level" "INFO") "log_level" validate_log_level

def resolveLogFormat (vs : Values) : Except VErr String :=
  resolveStrRaw vs "log_format" "%(asctime)s - %(name)s - %(levelname)s - %(message)s"

def resolveMaxQueryLength (vs : Values) : Except VErr Int :=
  withValidator (resolveIntRaw vs "max_query_length" 10000)
    "max_query_length" validate_max_query_length

def resolveMaxResultRows (vs : Values) : Except VErr Int :=
  withValidator (resolveIntRaw vs "max_result_rows" 1000)
    "max_result_rows" validate_max_result_rows

/-- The validated, immutable settings record (ServerConfig). -/
structure ServerConfig where
  database_path : String
  metadata_path : String
  server_name : String
  server_version : String
  host : String
  port : Int
  transport : String
  stateless_http : Bool
  json_response : Bool
  log_level : String
  log_format : String
  max_query_length : Int
  max_result_rows : Int
deriving DecidableEq, Repr

def andThen (x : Except VErr α) (f : α → Except VErr β) : Except VErr β :=
  match x with
  | Except.error e => Except.error e
  | Except.ok a => f a

/-- Constructing a ServerConfig from the (post-URL-override) values mapping:
every field validator must pass, otherwise construction fails with the
first validation error. -/
def buildConfig (vs : Values) : Except VErr ServerConfig :=
  andThen (resolveDatabasePath vs) fun dbp =>
  andThen (resolveMetadataPath vs) fun mdp =>
  andThen (resolveServerName vs) fun sn =>
  andThen (resolveServerVersion vs) fun sv =>
  andThen (resolveHost vs) fun h =>
  andThen (resolvePort vs) fun pt =>
  andThen (resolveTransport vs) fun tr =>
  andThen (resolveStatelessHttp vs) fun sh =>
  andThen (resolveJsonResponse vs) fun jr =>
  andThen (resolveLogLevel vs) fun ll =>
  andThen (resolveLogFormat vs) fun lf =>
  andThen (resolveMaxQueryLength vs) fun mql =>
  andThen (resolveMaxResultRows vs) fun mrr =>
  Except.ok ⟨dbp, mdp, sn, sv, h, pt, tr, sh, jr, ll, lf, mql, mrr⟩

/-- End-to-end settings resolution: the before-model validator runs first,
then construction with per-field validation. -/
def resolveSettings (vs : Values) (env : Env) : Except VErr ServerConfig :=
  buildConfig (parse_mcp_server_url vs env)

/-! ### Path resolution helpers (config.py lines 174-208), POSIX paths -/

def pathIsAbsolute (p : String) : Bool :=
  match p.data with
  | '/' :: _ => true
  | _ => false

def pathEndsInSlash (p : String) : Bool :=
  match p.data.getLast? with
  | some '/' => true
  | _ => false

/-- pathlib join of a base directory and a relative path. -/
def pathJoin (base p : String) : String :=
  if pathEndsInSlash base then base ++ p else base ++ "/" ++ p

/-- get_absolute_database_path: the configured path unchanged when already
absolute, otherwise joined to the base directory, which defaults to the
current working directory. -/
def get_absolute_database_path (c : ServerConfig) (base : Option String) (cwd : String) : String :=
  if pathIsAbsolute c.database_path then c.database_path
  else pathJoin (base.getD cwd) c.database_path

/-- get_absolute_metadata_path: same logic for the metadata document path. -/
def get_absolute_metadata_path (c : ServerConfig) (base : Option String) (cwd : String) : String :=
  if pathIsAbsolute c.metadata_path then c.metadata_path
  else pathJoin (base.getD cwd) c.metadata_path

/-! ### Fixture Generator (scripts/create_sample_db.py)

Model of the SQLite store: each table has an auto-incrementing integer
primary key (id) and a list of rows in insertion order.  The CREATE TABLE
statements of the script declare no UNIQUE constraint and no other primary
key, so the only constraint an INSERT could conflict with is the
auto-assigned id; INSERT OR IGNORE skips a row only on such a conflict.
DECIMAL literals are represented exactly as mantissa times ten to the
minus exponent; SQL NULL as Val.null. -/

inductive Val where
  | i : Int → Val
  | s : String → Val
  | d : Int → Nat → Val
  | null : Val
deriving DecidableEq, Repr

structure Table where
  nextId : Nat
  rows : List (Nat × List Val)
deriving DecidableEq, Repr

def Table.empty : Table := ⟨1, []⟩

abbrev Database := List (String × Table)

def getTable : Database → String → Option Table
  | [], _ => none
  | t :: rest, n => if t.1 = n then some t.2 else getTable rest n

def setTable : Database → String → Table → Database
  | [], n, tb => [(n, tb)]
  | t :: rest, n, tb => if t.1 = n then (n, tb) :: rest else t :: setTable rest n tb

/-- CREATE TABLE IF NOT EXISTS: a no-op when the table already exists. -/
def createTableIfNotExists (db : Database) (n : String) : Database :=
  match getTable db n with
  | some _ => db
  | none => db ++ [(n, Table.empty)]

/-- INSERT OR IGNORE of one row: the id column is auto-assigned the fresh
next id, so the only declared uniqueness constraint (the integer primary
key) can conflict only if the fresh id already exists among the rows. -/
def Table.insertOrIgnore (t : Table) (row : List Val) : Table :=
  if t.rows.any (fun r => r.1 = t.nextId) then t
  else ⟨t.nextId + 1, t.rows ++ [(t.nextId, row)]⟩

/-- cursor.executemany with INSERT OR IGNORE over a list of value tuples. -/
def insertOrIgnoreMany (db : Database) (n : String) (rows : List (List Val)) : Database :=
  match getTable db n with
  | none => db
  | some t => setTable db n (rows.foldl Table.insertOrIgnore t)

def rowCount (db : Database) (n : String) : Nat :=
  match getTable db n with
  | none => 0
  | some t => t.rows.length

/-- Seed rows for user_behavior_metadata (user_id, session_count,
avg_session_duration_min, bounce_rate, device_type, browser, geo_location,
referral_source, churn_risk_score). -/
def user_behavior_data : List (List Val) :=
  [ [Val.i 1, Val.i 45, Val.d 285 1, Val.d 12 2, Val.s "Desktop", Val.s "Chrome", Val.s "New York, USA", Val.s "Google Search", Val.d 15 2],
    [Val.i 2, Val.i 23, Val.d 153 1, Val.d 28 2, Val.s "Mobile", Val.s "Safari", Val.s "London, UK", Val.s "Direct", Val.d 35 2],
    [Val.i 3, Val.i 67, Val.d 421 1, Val.d 8 2, Val.s "Desktop", Val.s "Firefox", Val.s "Berlin, Germany", Val.s "Facebook Ads", Val.d 10 2],
    [Val.i 4, Val.i 12, Val.d 87 1, Val.d 45 2, Val.s "Tablet", Val.s "Safari", Val.s "Tokyo, Japan", Val.s "Email Campaign", Val.d 65 2],
    [Val.i 5, Val.i 89, Val.d 552 1, Val.d 5 2, Val.s "Desktop", Val.s "Edge", Val.s "Sydney, Australia", Val.s "Instagram", Val.d 8 2] ]

/-- Seed rows for product_performance_metadata (product_id, views_last_30d,
conversion_rate, return_rate, avg_cart_abandonment, seasonal_demand_score,
competitor_price, market_trend). -/
def product_performance_data : List (List Val) :=
  [ [Val.i 1, Val.i 3456, Val.d 45 3, Val.d 2 2, Val.d 15 2, Val.d 85 2, Val.d 119999 2, Val.s "Increasing"],
    [Val.i 2, Val.i 8912, Val.d 82 3, Val.d 1 2, Val.d 8 2, Val.d 45 2, Val.d 2499 2, Val.s "Stable"],
    [Val.i 3, Val.i 1234, Val.d 32 3, Val.d 5 2, Val.d 22 2, Val.d 60 2, Val.d 37999 2, Val.s "Decreasing"],
    [Val.i 4, Val.i 2345, Val.d 28 3, Val.d 3 2, Val.d 18 2, Val.d 70 2, Val.d 54999 2, Val.s "Stable"],
    [Val.i 5, Val.i 5678, Val.d 65 3, Val.d 2 2, Val.d 12 2, Val.d 55 2, Val.d 4499 2, Val.s "Increasing"],
    [Val.i 6, Val.i 4321, Val.d 55 3, Val.d 4 2, Val.d 20 2, Val.d 80 2, Val.d 39999 2, Val.s "Increasing"],
    [Val.i 7, Val.i 2109, Val.d 72 3, Val.d 1 2, Val.d 10 2, Val.d 40 2, Val.d 3499 2, Val.s "Stable"],
    [Val.i 8, Val.i 6789, Val.d 68 3, Val.d 3 2, Val.d 14 2, Val.d 65 2, Val.d 7999 2, Val.s "Increasing"],
    [Val.i 9, Val.i 3210, Val.d 51 3, Val.d 2 2, Val.d 16 2, Val.d 50 2, Val.d 5999 2, Val.s "Stable"],
    [Val.i 10, Val.i 987, Val.d 95 3, Val.d 1 2, Val.d 5 2, Val.d 30 2, Val.d 1099 2, Val.s "Decreasing"] ]

/-- Seed rows for order_logistics_metadata (order_id, warehouse_id,
picker_id, packing_time_min, shipping_carrier, tracking_url,
delivery_attempts, carbon_footprint, insurance_amount). -/
def order_logistics_data : List (List Val) :=
  [ [Val.i 1, Val.s "WH-001", Val.s "PICKER-042", Val.i 15, Val.s "FedEx", Val.s "https://fedex.com/track/123456", Val.i 1, Val.d 25 1, Val.d 5000 2],
    [Val.i 2, Val.s "WH-002", Val.s "PICKER-017", Val.i 12, Val.s "UPS", Val.s "https://ups.com/track/789012", Val.i 1, Val.d 18 1, Val.d 2500 2],
    [Val.i 3, Val.s "WH-001", Val.s "PICKER-023", Val.i 18, Val.s "DHL", Val.s "https://dhl.com/track/345678", Val.i 2, Val.d 22 1, Val.d 1500 2],
    [Val.i 4, Val.s "WH-003", Val.s "PICKER-009", Val.i 20, Val.s "USPS", Val.s "https://usps.com/track/901234", Val.i 1, Val.d 31 1, Val.d 3500 2] ]

/-- Seed rows for user_preferences_metadata (user_id, notification_channel,
language_preference, currency_preference, newsletter_subscribed,
marketing_consent, theme_preference, accessibility_needs). -/
def user_preferences_data : List (List Val) :=
  [ [Val.i 1, Val.s "email", Val.s "en", Val.s "USD", Val.i 1, Val.i 1, Val.s "dark", Val.null],
    [Val.i 2, Val.s "sms", Val.s "en-GB", Val.s "GBP", Val.i 1, Val.i 0, Val.s "light", Val.s "high-contrast"],
    [Val.i 3, Val.s "push", Val.s "de", Val.s "EUR", Val.i 0, Val.i 0, Val.s "auto", Val.null],
    [Val.i 4, Val.s "email", Val.s "ja", Val.s "JPY", Val.i 1, Val.i 1, Val.s "light", Val.s "large-text"],
    [Val.i 5, Val.s "email", Val.s "en-AU", Val.s "AUD", Val.i 0, Val.i 1, Val.s "dark", Val.null] ]

/-- Seed rows for product_supplier_metadata (product_id, manufacturer_name,
manufacturer_country, import_duty_rate, certification_type,
sustainability_score, lead_time_days, minimum_order_qty). -/
def product_supplier_data : List (List Val) :=
  [ [Val.i 1, Val.s "TechCorp Manufacturing", Val.s "China", Val.d 8 2, Val.s "ISO-9001", Val.i 85, Val.i 30, Val.i 10],
    [Val.i 2, Val.s "Precision Electronics", Val.s "Taiwan", Val.d 6 2, Val.s "CE", Val.i 78, Val.i 14, Val.i 100],
    [Val.i 3, Val.s "Comfort Furniture Co", Val.s "Vietnam", Val.d 12 2, Val.s "FSC", Val.i 92, Val.i 45, Val.i 5],
    [Val.i 4, Val.s "ErgoDesign Industries", Val.s "Malaysia", Val.d 10 2, Val.s "GREENGUARD", Val.i 88, Val.i 60, Val.i 3],
    [Val.i 5, Val.s "ConnectTech Ltd", Val.s "South Korea", Val.d 7 2, Val.s "RoHS", Val.i 80, Val.i 21, Val.i 50],
    [Val.i 6, Val.s "DisplayPro Inc", Val.s "Japan", Val.d 9 2, Val.s "Energy Star", Val.i 95, Val.i 35, Val.i 8],
    [Val.i 7, Val.s "Lumina Lighting", Val.s "Netherlands", Val.d 5 2, Val.s "UL", Val.i 90, Val.i 28, Val.i 20],
    [Val.i 8, Val.s "KeyMaster Tech", Val.s "Germany", Val.d 4 2, Val.s "CE", Val.i 87, Val.i 25, Val.i 15],
    [Val.i 9, Val.s "VisionCam Solutions", Val.s "Canada", Val.d 3 2, Val.s "FCC", Val.i 82, Val.i 18, Val.i 25],
    [Val.i 10, Val.s "PaperCraft Studios", Val.s "Italy", Val.d 2 2, Val.s "FSC", Val.i 75, Val.i 10, Val.i 200] ]

/-- Seed rows for order_financial_metadata (order_id, payment_processor,
transaction_fee, currency_used, exchange_rate, tax_jurisdiction,
invoice_number, accounting_period). -/
def order_financial_data : List (List Val) :=
  [ [Val.i 1, Val.s "Stripe", Val.d 3870 2, Val.s "USD", Val.d 10000 4, Val.s "NY-US", Val.s "INV-2024-001", Val.s "2024-Q1"],
    [Val.i 2, Val.s "PayPal", Val.d 1305 2, Val.s "USD", Val.d 10000 4, Val.s "CA-US", Val.s "INV-2024-002", Val.s "2024-Q1"],
    [Val.i 3, Val.s "Square", Val.d 261 2, Val.s "USD", Val.d 10000 4, Val.s "TX-US", Val.s "INV-2024-003", Val.s "2024-Q1"],
    [Val.i 4, Val.s "Stripe", Val.d 1885 2, Val.s "USD", Val.d 10000 4, Val.s "FL-US", Val.s "INV-2024-004", Val.s "2024-Q1"] ]

/-- One per-table entry of the emitted metadata document. -/
structure TableMeta where
  description : String
  columns : List String
  row_count : Nat
  foreign_key_reference : String
deriving DecidableEq, Repr

/-- The emitted metadata JSON document. -/
structure MetadataDoc where
  server_name : String
  database_path : String
  description : String
  business_use_cases : List String
  tables : List (String × TableMeta)
  notes : List (String × String)
  last_updated : String
deriving DecidableEq, Repr

/-- The result of one generator run: the store after the run, the metadata
document written to the metadata path, and the two paths the function
returns.  The datetime.now() timestamp is passed in as `now`. -/
structure GenResult where
  db : Database
  doc : MetadataDoc
  dbPath : String
  metaPath : String
deriving Repr

def metadataTableNames : List String :=
  ["user_behavior_metadata", "product_performance_metadata", "order_logistics_metadata",
   "user_preferences_metadata", "product_supplier_metadata", "order_financial_metadata"]

/-- create_sample_database: ensures the six metadata tables exist in the
store, runs the six INSERT OR IGNORE batches, and emits the metadata
document with its hardcoded per-table row counts.  The caller passes the
current contents of the store file (empty for a fresh file); directory
creation is a filesystem side effect outside the store model. -/
def create_sample_database (store : Database) (now : String) : GenResult :=
  let db := createTableIfNotExists store "user_behavior_metadata"
  let db := createTableIfNotExists db "product_performance_metadata"
  let db := createTableIfNotExists db "order_logistics_metadata"
  let db := createTableIfNotExists db "user_preferences_metadata"
  let db := createTableIfNotExists db "product_supplier_metadata"
  let db := createTableIfNotExists db "order_financial_metadata"
  let db := insertOrIgnoreMany db "user_behavior_metadata" user_behavior_data
  let db := insertOrIgnoreMany db "product_performance_metadata" product_performance_data
  let db := insertOrIgnoreMany db "order_logistics_metadata" order_logistics_data
  let db := insertOrIgnoreMany db "user_preferences_metadata" user_preferences_data
  let db := insertOrIgnoreMany db "product_supplier_metadata" product_supplier_data
  let db := insertOrIgnoreMany db "order_financial_metadata" order_financial_data
  let doc : MetadataDoc :=
    { server_name := "metadata-mcp-server"
      database_path := "test_data/sample.db"
      description := "Metadata-only database for multi-MCP server testing (disjoint from main data)"
      business_use_cases :=
        ["User behavior analytics", "Product performance monitoring", "Supply chain management",
         "Logistics tracking", "Financial reconciliation", "Customer preference analysis",
         "Cross-server data federation testing", "Multi-source JOIN operations"]
      tables :=
        [ ("user_behavior_metadata",
            ⟨"User behavioral analytics and engagement metrics",
             ["id", "user_id", "session_count", "avg_session_duration_min", "bounce_rate",
              "device_type", "browser", "geo_location", "referral_source", "churn_risk_score", "last_analyzed"],
             5, "user_id -> users.id (in another MCP server)"⟩),
          ("product_performance_metadata",
            ⟨"Product performance metrics and market analysis",
             ["id", "product_id", "views_last_30d", "conversion_rate", "return_rate",
              "avg_cart_abandonment", "seasonal_demand_score", "competitor_price", "market_trend", "last_analyzed"],
             10, "product_id -> products.id (in another MCP server)"⟩),
          ("order_logistics_metadata",
            ⟨"Order shipping and logistics tracking",
             ["id", "order_id", "warehouse_id", "picker_id", "packing_time_min",
              "shipping_carrier", "tracking_url", "delivery_attempts", "carbon_footprint", "insurance_amount"],
             4, "order_id -> orders.id (in another MCP server)"⟩),
          ("user_preferences_metadata",
            ⟨"User preferences and communication settings",
             ["id", "user_id", "notification_channel", "language_preference", "currency_preference",
              "newsletter_subscribed", "marketing_consent", "theme_preference", "accessibility_needs", "updated_at"],
             5, "user_id -> users.id (in another MCP server)"⟩),
          ("product_supplier_metadata",
            ⟨"Product supply chain and manufacturer information",
             ["id", "product_id", "manufacturer_name", "manufacturer_country", "import_duty_rate",
              "certification_type", "sustainability_score", "lead_time_days", "minimum_order_qty", "last_updated"],
             10, "product_id -> products.id (in another MCP server)"⟩),
          ("order_financial_metadata",
            ⟨"Order financial and payment processing details",
             ["id", "order_id", "payment_processor", "transaction_fee", "currency_used",
              "exchange_rate", "tax_jurisdiction", "invoice_number", "accounting_period", "processed_at"],
             4, "order_id -> orders.id (in another MCP server)"⟩) ]
      notes :=
        [ ("data_separation", "This database contains ONLY metadata tables. Original tables (users, products, orders, order_items) exist in a separate MCP server."),
          ("join_capability", "Tables use matching IDs to enable JOIN operations across MCP servers."),
          ("testing_purpose", "Designed for testing multi-MCP server data federation and cross-server JOIN capabilities.") ]
      last_updated := now }
  ⟨db, doc, "test_data/sample.db", "resources/metadata.json"⟩

/-- Modelled from the spec: the standalone variant entity set (spec section
3, variant A: User, Product, Order, OrderItem).  The generator for the
standalone variant is not part of this repository; only its table-name set
is needed, to state disjointness of the two variants. -/
def standaloneTableNames : List String := ["users", "products", "orders", "order_items"]

/-- First generator run, against an empty store. -/
def run1 : GenResult := create_sample_database [] "2024-01-01T00:00:00"

/-- Second generator run, against the store left by the first run. -/
def run2 : GenResult := create_sample_database run1.db "2024-01-02T00:00:00"

/-- True when the first column of the row (the cross-store natural-key
identifier of every seed tuple) is the given integer. -/
def natKeyIs (n : Int) (r : Nat × List Val) : Bool :=
  match r.2 with
  | Val.i m :: _ => m = n
  | _ => false

/-- Number of rows of the named table whose natural-key identifier is n. -/
def natKeyCount (db : Database) (tbl : String) (n : Int) : Nat :=
  match getTable db tbl with
  | none => 0
  | some t => t.rows.countP (natKeyIs n)

/-! ### Claims about the Fixture Generator -/

/-- C1: the claim says running the generator twice leaves the store as after
one run, with no seed row duplicated for an existing natural-key identifier.
The code violates this: the six CREATE TABLE statements declare no UNIQUE
constraint on the natural keys, so INSERT OR IGNORE never ignores anything
and the second run re-inserts every seed row.  Evaluating the code at the
failing input (two consecutive runs from an empty store): the first run
seeds row counts [5, 10, 4, 5, 10, 4], the second run doubles every count
to [10, 20, 8, 10, 20, 8], and user_behavior_metadata then holds two rows
with the already-existing natural-key identifier user_id = 1. -/
theorem c1_second_run_duplicates_rows :
    metadataTableNames.map (rowCount run1.db) = [5, 10, 4, 5, 10, 4] ∧
    metadataTableNames.map (rowCount run2.db) = [10, 20, 8, 10, 20, 8] ∧
    natKeyCount run1.db "user_behavior_metadata" 1 = 1 ∧
    natKeyCount run2.db "user_behavior_metadata" 1 = 2 := by
  decide

/-- C2: the claim says the per-table row counts written into the emitted
metadata document equal the actual row counts of the store after every run.
The row counts in the document are hardcoded constants (5, 10, 4, 5, 10, 4);
they match the store after a first run against an empty store, but after a
second run the store holds doubled counts while the document still says the
constants, so the claim fails for that run. -/
theorem c2_doc_counts_diverge_on_second_run :
    run1.doc.tables.map (fun p => (p.1, p.2.row_count)) =
      metadataTableNames.zip [5, 10, 4, 5, 10, 4] ∧
    metadataTableNames.map (rowCount run1.db) = [5, 10, 4, 5, 10, 4] ∧
    run2.doc.tables.map (fun p => (p.1, p.2.row_count)) =
      metadataTableNames.zip [5, 10, 4, 5, 10, 4] ∧
    metadataTableNames.map (rowCount run2.db) = [10, 20, 8, 10, 20, 8] := by
  decide

/-- C3 counterexample: the claim says the generator takes a target store
path and a target metadata-document path as input and supports exactly two
schema/seed variants.  The source function create_sample_database takes no
path and no variant argument: a run always returns the fixed paths
test_data/sample.db and resources/metadata.json, and always emits a
document describing exactly the six metadata-only tables, never the
standalone tables — so no run can target the standalone variant or a
caller-chosen path. -/
theorem c3_counterexample :
    run1.dbPath = "test_data/sample.db" ∧
    run1.metaPath = "resources/metadata.json" ∧
    run1.doc.database_path = "test_data/sample.db" ∧
    run1.doc.tables.map Prod.fst = metadataTableNames ∧
    standaloneTableNames.all (fun n => !(metadataTableNames.contains n)) = true := by
  decide

/-- C3 (amended): the generator in this repository uses the fixed store
path test_data/sample.db and the fixed metadata-document path
resources/metadata.json (it takes no path input), and implements only the
metadata-only variant: for every starting store and timestamp, the run
writes a metadata document describing exactly the six metadata-only tables,
none of which is a table of the standalone variant (which belongs to a peer
server outside this repository). -/
theorem c3_fixed_paths_single_variant (store : Database) (now : String) :
    (create_sample_database store now).dbPath = "test_data/sample.db" ∧
    (create_sample_database store now).metaPath = "resources/metadata.json" ∧
    (create_sample_database store now).doc.database_path = "test_data/sample.db" ∧
    (create_sample_database store now).doc.tables.map Prod.fst = metadataTableNames ∧
    standaloneTableNames.all (fun n => !(metadataTableNames.contains n)) = true := by
  exact ⟨rfl, rfl, rfl, rfl, by decide⟩

/-! ### Helper lemmas about the values mapping and the URL override -/

theorem lookupVal_setVal_self (vs : Values) (k : String) (v : PyVal) :
    lookupVal (setVal vs k v) k = some v := by
  induction vs with
  | nil => simp [setVal, lookupVal]
  | cons p rest ih =>
    by_cases h : p.1 = k
    · simp [setVal, h, lookupVal]
    · simp [setVal, h, lookupVal, ih]

theorem lookupVal_setVal_ne (vs : Values) (k k2 : String) (v : PyVal) (h : k2 ≠ k) :
    lookupVal (setVal vs k v) k2 = lookupVal vs k2 := by
  have hkk2 : ¬ k = k2 := fun he => h he.symm
  induction vs with
  | nil => simp [setVal, lookupVal, hkk2]
  | cons p rest ih =>
    by_cases hp : p.1 = k
    · have hpk2 : ¬ p.1 = k2 := by rw [hp]; exact hkk2
      simp [setVal, hp, lookupVal, hpk2, hkk2]
    · by_cases hp2 : p.1 = k2
      · simp [setVal, hp, lookupVal, hp2, h]
      · simp [setVal, hp, lookupVal, hp2, ih]

theorem lookupVal_applyUrl_host (b : Values) (url : String) :
    lookupVal (applyUrl b url) "host" =
      (match pyHostname (extractNetloc url) with
       | some h => some (PyVal.s h)
       | none => lookupVal b "host") := by
  unfold applyUrl
  cases hh : pyHostname (extractNetloc url) with
  | none =>
    cases hp : pyPort (extractNetloc url) with
    | error e => simp [hh, hp]
    | ok po =>
      cases po with
      | none => simp [hh, hp]
      | some p =>
        by_cases h0 : p = 0
        · simp [hh, hp, h0]
        · simp [hh, hp, h0, lookupVal_setVal_ne _ _ _ _ (by decide : "host" ≠ "port")]
  | some h =>
    cases hp : pyPort (extractNetloc url) with
    | error e => simp [hh, hp, lookupVal_setVal_self]
    | ok po =>
      cases po with
      | none => simp [hh, hp, lookupVal_setVal_self]
      | some p =>
        by_cases h0 : p = 0
        · simp [hh, hp, h0, lookupVal_setVal_self]
        · simp [hh, hp, h0,
            lookupVal_setVal_ne _ _ _ _ (by decide : "host" ≠ "port"),
            lookupVal_setVal_self]

theorem lookupVal_applyUrl_port (b : Values) (url : String) :
    lookupVal (applyUrl b url) "port" =
      (match pyPort (extractNetloc url) with
       | Except.ok (some p) =>
         if p ≠ 0 then some (PyVal.i (Int.ofNat p)) else lookupVal b "port"
       | _ => lookupVal b "port") := by
  unfold applyUrl
  have hne : ("port" : String) ≠ "host" := by decide
  cases hh : pyHostname (extractNetloc url) with
  | none =>
    cases hp : pyPort (extractNetloc url) with
    | error e => simp [hh, hp]
    | ok po =>
      cases po with
      | none => simp [hh, hp]
      | some p =>
        by_cases h0 : p = 0
        · simp [hh, hp, h0]
        · simp [hh, hp, h0, lookupVal_setVal_self]
  | some h =>
    cases hp : pyPort (extractNetloc url) with
    | error e => simp [hh, hp, lookupVal_setVal_ne _ _ _ _ hne]
    | ok po =>
      cases po with
      | none => simp [hh, hp, lookupVal_setVal_ne _ _ _ _ hne]
      | some p =>
        by_cases h0 : p = 0
        · simp [hh, hp, h0, lookupVal_setVal_ne _ _ _ _ hne]
        · simp [hh, hp, h0, lookupVal_setVal_self]

theorem lookupVal_applyUrl_frame (b : Values) (url : String) (k : String)
    (hk1 : k ≠ "host") (hk2 : k ≠ "port") :
    lookupVal (applyUrl b url) k = lookupVal b k := by
  unfold applyUrl
  cases hh : pyHostname (extractNetloc url) with
  | none =>
    cases hp : pyPort (extractNetloc url) with
    | error e => simp [hh, hp]
    | ok po =>
      cases po with
      | none => simp [hh, hp]
      | some p =>
        by_cases h0 : p = 0
        · simp [hh, hp, h0]
        · simp [hh, hp, h0, lookupVal_setVal_ne _ _ _ _ hk2]
  | some h =>
    cases hp : pyPort (extractNetloc url) with
    | error e => simp [hh, hp, lookupVal_setVal_ne _ _ _ _ hk1]
    | ok po =>
      cases po with
      | none => simp [hh, hp, lookupVal_setVal_ne _ _ _ _ hk1]
      | some p =>
        by_cases h0 : p = 0
        · simp [hh, hp, h0, lookupVal_setVal_ne _ _ _ _ hk1]
        · simp [hh, hp, h0, lookupVal_setVal_ne _ _ _ _ hk2,
            lookupVal_setVal_ne _ _ _ _ hk1]

theorem applyUrl_eq_self (b : Values) (url : String)
    (hh : pyHostname (extractNetloc url) = none)
    (hp : pyPort (extractNetloc url) = Except.error ()) :
    applyUrl b url = b := by
  unfold applyUrl
  simp [hh, hp]

theorem parse_eq_applyUrl (vs : Values) (env : Env) (url : String)
    (h : mcpUrlValue vs env = some (PyVal.s url)) (hne : url ≠ "") :
    parse_mcp_server_url vs env = applyUrl vs url := by
  unfold parse_mcp_server_url
  rw [h]
  simp [pyTruthy, hne]

theorem pyHostname_empty : pyHostname (extractNetloc "") = none := by decide

theorem pyPort_empty : pyPort (extractNetloc "") = Except.ok none := by decide

/-! ### Claims about the URL override and settings resolution -/

def c4vs : Values :=
  [("host", PyVal.s "localhost"), ("port", PyVal.s "8000"),
   ("MCP_SERVER_URL", PyVal.s "http://evil:abc")]

/-- C4 counterexample: the claim says resolution completes with host and
port unchanged by a malformed override URL.  For the URL http://evil:abc
the port text abc makes the port property raise, but the hostname was
already parsed and written: the host changes from localhost to evil, so
the values are not unchanged. -/
theorem c4_counterexample :
    lookupVal c4vs "host" = some (PyVal.s "localhost") ∧
    pyPort (extractNetloc "http://evil:abc") = Except.error () ∧
    lookupVal (parse_mcp_server_url c4vs noEnv) "host" = some (PyVal.s "evil") := by
  decide

/-- C4 (amended): a malformed override URL (one whose port component fails
to parse) never causes a hard failure: resolution completes, the port and
every key other than the host keep the values determined from the earlier
sources, and the host also keeps its value when the hostname component is
absent — but when the URL has a parseable nonempty hostname, that hostname
has already been applied before the port error, so the host is overridden. -/
theorem c4_malformed_url_not_fatal (vs : Values) (env : Env) (url : String)
    (hurl : mcpUrlValue vs env = some (PyVal.s url))
    (hbad : pyPort (extractNetloc url) = Except.error ()) :
    lookupVal (parse_mcp_server_url vs env) "port" = lookupVal vs "port" ∧
    (∀ k, k ≠ "host" → lookupVal (parse_mcp_server_url vs env) k = lookupVal vs k) ∧
    (pyHostname (extractNetloc url) = none → parse_mcp_server_url vs env = vs) ∧
    (∀ h, pyHostname (extractNetloc url) = some h →
      lookupVal (parse_mcp_server_url vs env) "host" = some (PyVal.s h)) := by
  have hne : url ≠ "" := by
    intro h0
    rw [h0, pyPort_empty] at hbad
    exact absurd hbad (by decide)
  rw [parse_eq_applyUrl vs env url hurl hne]
  refine ⟨?_, ?_, ?_, ?_⟩
  · rw [lookupVal_applyUrl_port, hbad]
  · intro k hk
    by_cases hkp : k = "port"
    · rw [hkp, lookupVal_applyUrl_port, hbad]
    · exact lookupVal_applyUrl_frame vs url k hk hkp
  · intro hh
    exact applyUrl_eq_self vs url hh hbad
  · intro h hh
    rw [lookupVal_applyUrl_host, hh]

/-- C4 witness: the amended theorem instantiated at the malformed URL
http://evil:abc over prior values host=localhost, port=8000. -/
theorem c4_witness :
    mcpUrlValue c4vs noEnv = some (PyVal.s "http://evil:abc") ∧
    pyPort (extractNetloc "http://evil:abc") = Except.error () ∧
    lookupVal (parse_mcp_server_url c4vs noEnv) "port" = lookupVal c4vs "port" := by
  refine ⟨by decide, by decide, ?_⟩
  exact (c4_malformed_url_not_fatal c4vs noEnv "http://evil:abc" (by decide) (by decide)).1

def c6vs0 : Values :=
  [("port", PyVal.s "8000"), ("MCP_SERVER_URL", PyVal.s "http://example.org:0/path")]

/-- C6 counterexample: the claim says a well-formed override URL whose port
component is present replaces the resolved port.  The URL
http://example.org:0/path parses with port component 0 present, yet the
code guards the assignment with Python truthiness, under which 0 is falsy:
the prior port 8000 is kept, not replaced by 0. -/
theorem c6_counterexample :
    pyHostname (extractNetloc "http://example.org:0/path") = some "example.org" ∧
    pyPort (extractNetloc "http://example.org:0/path") = Except.ok (some 0) ∧
    lookupVal (parse_mcp_server_url c6vs0 noEnv) "port" = some (PyVal.s "8000") := by
  decide

/-- C6 (amended): for every override URL value, the URL's hostname
component, when present, replaces the resolved host, and its nonzero port
component, when present, replaces the resolved port, while every other key
of the values mapping is left untouched; a URL lacking a hostname component
leaves the host unchanged, and a URL whose port component is absent — or
equal to 0, which the truthiness guard treats like an absent port — leaves
the previously-resolved port unchanged. -/
theorem c6_wellformed_url_overrides (vs : Values) (env : Env) (url : String)
    (hurl : mcpUrlValue vs env = some (PyVal.s url)) :
    (∀ hst, pyHostname (extractNetloc url) = some hst →
       lookupVal (parse_mcp_server_url vs env) "host" = some (PyVal.s hst)) ∧
    (pyHostname (extractNetloc url) = none →
       lookupVal (parse_mcp_server_url vs env) "host" = lookupVal vs "host") ∧
    (∀ p : Nat, pyPort (extractNetloc url) = Except.ok (some p) → p ≠ 0 →
       lookupVal (parse_mcp_server_url vs env) "port" = some (PyVal.i (Int.ofNat p))) ∧
    (pyPort (extractNetloc url) = Except.ok none →
       lookupVal (parse_mcp_server_url vs env) "port" = lookupVal vs "port") ∧
    (pyPort (extractNetloc url) = Except.ok (some 0) →
       lookupVal (parse_mcp_server_url vs env) "port" = lookupVal vs "port") ∧
    (∀ k, k ≠ "host" → k ≠ "port" →
       lookupVal (parse_mcp_server_url vs env) k = lookupVal vs k) := by
  by_cases hu : url = ""
  · subst hu
    have hparse : parse_mcp_server_url vs env = vs := by
      unfold parse_mcp_server_url
      rw [hurl]
      simp [pyTruthy]
    rw [hparse]
    refine ⟨?_, ?_, ?_, ?_, ?_, ?_⟩
    · intro hst hh
      rw [pyHostname_empty] at hh
      exact Option.noConfusion hh
    · intro _
      rfl
    · intro p hp _
      rw [pyPort_empty] at hp
      simp at hp
    · intro _
      rfl
    · intro hp
      exact absurd hp (by decide)
    · intro k _ _
      rfl
  · rw [parse_eq_applyUrl vs env url hurl hu]
    refine ⟨?_, ?_, ?_, ?_, ?_, ?_⟩
    · intro hst hh
      rw [lookupVal_applyUrl_host, hh]
    · intro hh
      rw [lookupVal_applyUrl_host, hh]
    · intro p hp hp0
      rw [lookupVal_applyUrl_port, hp]
      simp [hp0]
    · intro hp
      rw [lookupVal_applyUrl_port, hp]
    · intro hp
      rw [lookupVal_applyUrl_port, hp]
      simp
    · intro k hk1 hk2
      exact lookupVal_applyUrl_frame vs url k hk1 hk2

def c6vs : Values :=
  [("host", PyVal.s "localhost"), ("port", PyVal.s "8000"),
   ("MCP_SERVER_URL", PyVal.s "http://example.org:9999/path")]

/-- C6 witness: the override URL http://example.org:9999/path resolves host
to example.org and port to 9999 over prior values host=localhost,
port=8000; and the port-0 clause of the theorem, applied to the URL
http://example.org:0/path, leaves the prior port entry unchanged. -/
theorem c6_witness :
    mcpUrlValue c6vs noEnv = some (PyVal.s "http://example.org:9999/path") ∧
    pyHostname (extractNetloc "http://example.org:9999/path") = some "example.org" ∧
    pyPort (extractNetloc "http://example.org:9999/path") = Except.ok (some 9999) ∧
    lookupVal (parse_mcp_server_url c6vs noEnv) "host" = some (PyVal.s "example.org") ∧
    lookupVal (parse_mcp_server_url c6vs noEnv) "port" = some (PyVal.i 9999) ∧
    lookupVal (parse_mcp_server_url c6vs0 noEnv) "port" = lookupVal c6vs0 "port" := by
  refine ⟨by decide, by decide, by decide, ?_, ?_, ?_⟩
  · exact (c6_wellformed_url_overrides c6vs noEnv "http://example.org:9999/path"
      (by decide)).1 "example.org" (by decide)
  · exact (c6_wellformed_url_overrides c6vs noEnv "http://example.org:9999/path"
      (by decide)).2.2.1 9999 (by decide) (by decide)
  · exact (c6_wellformed_url_overrides c6vs0 noEnv "http://example.org:0/path"
      (by decide)).2.2.2.2.1 (by decide)

/-- C10: when neither the uppercase nor the lowercase override-URL key is
present in the values mapping, the resolver consults the process
environment for the uppercase key MCP_SERVER_URL only — the result depends
on the environment only through that key — and an override value found
there produces, for every key other than MCP_SERVER_URL itself, exactly the
values that passing the same value in the mapping would produce. -/
theorem c10_env_fallback_uppercase_only (vs : Values) (env : Env) (u : String)
    (h1 : lookupVal vs "MCP_SERVER_URL" = none)
    (h2 : lookupVal vs "mcp_server_url" = none)
    (henv : env "MCP_SERVER_URL" = some u) :
    (∀ k, k ≠ "MCP_SERVER_URL" →
       lookupVal (parse_mcp_server_url vs env) k =
         lookupVal (parse_mcp_server_url (setVal vs "MCP_SERVER_URL" (PyVal.s u)) noEnv) k) ∧
    (∀ env2 : Env, env2 "MCP_SERVER_URL" = env "MCP_SERVER_URL" →
       parse_mcp_server_url vs env2 = parse_mcp_server_url vs env) := by
  constructor
  · intro k hk
    have hmcpL : mcpUrlValue vs env = some (PyVal.s u) ∨
        (u = "" ∧ mcpUrlValue vs env = some (PyVal.s "")) := by
      unfold mcpUrlValue
      rw [h1, h2, henv]
      by_cases hu : u = ""
      · right
        subst hu
        exact ⟨rfl, rfl⟩
      · left
        rfl
    have hupkey : lookupVal (setVal vs "MCP_SERVER_URL" (PyVal.s u)) "MCP_SERVER_URL" =
        some (PyVal.s u) := lookupVal_setVal_self vs _ _
    have hlowkey : lookupVal (setVal vs "MCP_SERVER_URL" (PyVal.s u)) "mcp_server_url" =
        none := by
      rw [lookupVal_setVal_ne vs _ _ _ (by decide), h2]
    by_cases hu : u = ""
    · subst hu
      have hL : parse_mcp_server_url vs env = vs := by
        unfold parse_mcp_server_url
        unfold mcpUrlValue
        rw [h1, h2, henv]
        simp [pyOr, pyTruthy]
      have hR : parse_mcp_server_url (setVal vs "MCP_SERVER_URL" (PyVal.s "")) noEnv =
          setVal vs "MCP_SERVER_URL" (PyVal.s "") := by
        unfold parse_mcp_server_url
        unfold mcpUrlValue
        rw [hupkey, hlowkey]
        simp [pyOr, pyTruthy, noEnv]
      rw [hL, hR, lookupVal_setVal_ne vs _ _ _ hk]
    · have hmcp : mcpUrlValue vs env = some (PyVal.s u) := by
        unfold mcpUrlValue
        rw [h1, h2, henv]
        rfl
      have hmcpR : mcpUrlValue (setVal vs "MCP_SERVER_URL" (PyVal.s u)) noEnv =
          some (PyVal.s u) := by
        unfold mcpUrlValue
        rw [hupkey, hlowkey]
        simp [pyOr, pyTruthy, noEnv, hu]
      rw [parse_eq_applyUrl vs env u hmcp hu,
        parse_eq_applyUrl _ noEnv u hmcpR hu]
      by_cases hkh : k = "host"
      · subst hkh
        rw [lookupVal_applyUrl_host, lookupVal_applyUrl_host]
        cases pyHostname (extractNetloc u) with
        | none => simp [lookupVal_setVal_ne vs _ _ _ hk]
        | some h => rfl
      · by_cases hkp : k = "port"
        · subst hkp
          rw [lookupVal_applyUrl_port, lookupVal_applyUrl_port]
          cases hp : pyPort (extractNetloc u) with
          | error e => simp [lookupVal_setVal_ne vs _ _ _ hk]
          | ok po =>
            cases po with
            | none => simp [lookupVal_setVal_ne vs _ _ _ hk]
            | some p =>
              by_cases h0 : p = 0
              · simp [h0, lookupVal_setVal_ne vs _ _ _ hk]
              · simp [h0]
        · rw [lookupVal_applyUrl_frame vs u k hkh hkp,
            lookupVal_applyUrl_frame _ u k hkh hkp,
            lookupVal_setVal_ne vs _ _ _ hk]
  · intro env2 henv2
    unfold parse_mcp_server_url
    unfold mcpUrlValue
    rw [henv2]

def c10vs : Values := [("port", PyVal.s "8000")]

def c10env : Env := fun k => if k = "MCP_SERVER_URL" then some "http://envhost:7777" else none

/-- C10 witness: with no override key in the mapping and
MCP_SERVER_URL=http://envhost:7777 in the environment, the resolver applies
the environment value exactly as if it had been passed in the mapping. -/
theorem c10_witness :
    lookupVal c10vs "MCP_SERVER_URL" = none ∧
    lookupVal c10vs "mcp_server_url" = none ∧
    c10env "MCP_SERVER_URL" = some "http://envhost:7777" ∧
    lookupVal (parse_mcp_server_url c10vs c10env) "host" =
      lookupVal (parse_mcp_server_url
        (setVal c10vs "MCP_SERVER_URL" (PyVal.s "http://envhost:7777")) noEnv) "host" := by
  refine ⟨by decide, by decide, by decide, ?_⟩
  exact (c10_env_fallback_uppercase_only c10vs c10env "http://envhost:7777"
    (by decide) (by decide) (by decide)).1 "host" (by decide)

/-! ### Helper lemmas about settings construction -/

theorem andThen_ok {α β : Type} (x : Except VErr α) (f : α → Except VErr β) (b : β)
    (h : andThen x f = Except.ok b) : ∃ a, x = Except.ok a ∧ f a = Except.ok b := by
  cases x with
  | error e => exact Except.noConfusion h
  | ok a => exact ⟨a, rfl, h⟩

theorem andThen_err {α β : Type} (x : Except VErr α) (f : α → Except VErr β) (e : VErr)
    (h : andThen x f = Except.error e) :
    x = Except.error e ∨ ∃ a, x = Except.ok a ∧ f a = Except.error e := by
  cases x with
  | error e0 =>
    left
    have he : e0 = e := by injection h
    rw [he]
  | ok a => exact Or.inr ⟨a, rfl, h⟩

theorem mapError_field {α : Type} (x : Except String α) (k : String) (e : VErr)
    (h : Except.mapError (VErr.mk k) x = Except.error e) : e.field = k := by
  cases x with
  | error m =>
    have he : VErr.mk k m = e := by injection h
    rw [← he]
  | ok a => exact Except.noConfusion h

theorem withValidator_err {α β : Type} (raw : Except VErr α) (k : String)
    (f : α → Except String β) (e : VErr) (h : withValidator raw k f = Except.error e)
    (hraw : ∀ e0, raw = Except.error e0 → e0.field = k) : e.field = k := by
  cases raw with
  | error e0 =>
    have he : e0 = e := by injection h
    rw [← he]
    exact hraw e0 rfl
  | ok a => exact mapError_field (f a) k e h

theorem withValidator_ok {α β : Type} (raw : Except VErr α) (k : String)
    (f : α → Except String β) (b : β) (h : withValidator raw k f = Except.ok b) :
    ∃ a, raw = Except.ok a ∧ f a = Except.ok b := by
  cases raw with
  | error e0 => exact Except.noConfusion h
  | ok a =>
    refine ⟨a, rfl, ?_⟩
    cases hf : f a with
    | error m =>
      rw [show withValidator (Except.ok a) k f = (f a).mapError (VErr.mk k) from rfl, hf] at h
      exact Except.noConfusion h
    | ok b0 =>
      rw [show withValidator (Except.ok a) k f = (f a).mapError (VErr.mk k) from rfl, hf] at h
      have hb : b0 = b := by injection h
      rw [← hb]

theorem resolveStrRaw_err (vs : Values) (k d : String) (e : VErr)
    (h : resolveStrRaw vs k d = Except.error e) : e.field = k := by
  unfold resolveStrRaw at h
  cases hl : lookupVal vs k with
  | none =>
    rw [hl] at h
    exact Except.noConfusion h
  | some v =>
    cases v with
    | s s =>
      rw [hl] at h
      exact Except.noConfusion h
    | i n =>
      rw [hl] at h
      have he : VErr.mk k "input should be a valid string" = e := by injection h
      rw [← he]

theorem resolveIntRaw_err (vs : Values) (k : String) (d : Int) (e : VErr)
    (h : resolveIntRaw vs k d = Except.error e) : e.field = k := by
  unfold resolveIntRaw at h
  split at h
  · exact Except.noConfusion h
  · exact Except.noConfusion h
  · split at h
    · exact Except.noConfusion h
    · have he : VErr.mk k "input should be a valid integer" = e := by injection h
      rw [← he]

theorem resolveBoolRaw_err (vs : Values) (k : String) (d : Bool) (e : VErr)
    (h : resolveBoolRaw vs k d = Except.error e) : e.field = k := by
  unfold resolveBoolRaw at h
  split at h
  · exact Except.noConfusion h
  · split at h
    · exact Except.noConfusion h
    · split at h
      · exact Except.noConfusion h
      · have he : VErr.mk k "input should be a valid boolean" = e := by injection h
        rw [← he]
  · split at h
    · exact Except.noConfusion h
    · have he : VErr.mk k "input should be a valid boolean" = e := by injection h
      rw [← he]

theorem resolveStrRaw_of_lookup (vs : Values) (k d v : String)
    (h : lookupVal vs k = some (PyVal.s v)) : resolveStrRaw vs k d = Except.ok v := by
  unfold resolveStrRaw
  rw [h]

theorem validate_database_path_ok (v w : String)
    (h : validate_database_path v = Except.ok w) : w = v ∧ v ≠ "" := by
  unfold validate_database_path at h
  by_cases he : v = ""
  · rw [if_pos he] at h
    exact Except.noConfusion h
  · rw [if_neg he] at h
    have hw : v = w := by injection h
    exact ⟨hw.symm, he⟩

theorem validate_metadata_path_ok (v w : String)
    (h : validate_metadata_path v = Except.ok w) : w = v ∧ v ≠ "" := by
  unfold validate_metadata_path at h
  by_cases he : v = ""
  · rw [if_pos he] at h
    exact Except.noConfusion h
  · rw [if_neg he] at h
    have hw : v = w := by injection h
    exact ⟨hw.symm, he⟩

theorem validate_port_ok (v w : Int) (h : validate_port v = Except.ok w) :
    w = v ∧ 1 ≤ v ∧ v ≤ 65535 := by
  unfold validate_port at h
  by_cases hr : 1 ≤ v ∧ v ≤ 65535
  · rw [if_pos hr] at h
    have hw : v = w := by injection h
    exact ⟨hw.symm, hr⟩
  · rw [if_neg hr] at h
    exact Except.noConfusion h

theorem validate_transport_ok (v w : String) (h : validate_transport v = Except.ok w) :
    w = v ∧ v ∈ validTransports := by
  unfold validate_transport at h
  by_cases hm : v ∈ validTransports
  · rw [if_pos hm] at h
    have hw : v = w := by injection h
    exact ⟨hw.symm, hm⟩
  · rw [if_neg hm] at h
    exact Except.noConfusion h

theorem validate_log_level_ok (v w : String) (h : validate_log_level v = Except.ok w) :
    w = pyUpper v ∧ pyUpper v ∈ validLogLevels := by
  unfold validate_log_level at h
  by_cases hm : pyUpper v ∈ validLogLevels
  · rw [if_pos hm] at h
    have hw : pyUpper v = w := by injection h
    exact ⟨hw.symm, hm⟩
  · rw [if_neg hm] at h
    exact Except.noConfusion h

theorem validate_max_query_length_ok (v w : Int)
    (h : validate_max_query_length v = Except.ok w) : w = v ∧ 0 < v := by
  unfold validate_max_query_length at h
  by_cases hle : v ≤ 0
  · rw [if_pos hle] at h
    exact Except.noConfusion h
  · rw [if_neg hle] at h
    have hw : v = w := by injection h
    exact ⟨hw.symm, lt_of_not_le hle⟩

theorem validate_max_result_rows_ok (v w : Int)
    (h : validate_max_result_rows v = Except.ok w) : w = v ∧ 0 < v := by
  unfold validate_max_result_rows at h
  by_cases hle : v ≤ 0
  · rw [if_pos hle] at h
    exact Except.noConfusion h
  · rw [if_neg hle] at h
    have hw : v = w := by injection h
    exact ⟨hw.symm, lt_of_not_le hle⟩

theorem buildConfig_ok_inv (vs : Values) (c : ServerConfig)
    (h : buildConfig vs = Except.ok c) :
    resolveDatabasePath vs = Except.ok c.database_path ∧
    resolveMetadataPath vs = Except.ok c.metadata_path ∧
    resolveServerName vs = Except.ok c.server_name ∧
    resolveServerVersion vs = Except.ok c.server_version ∧
    resolveHost vs = Except.ok c.host ∧
    resolvePort vs = Except.ok c.port ∧
    resolveTransport vs = Except.ok c.transport ∧
    resolveStatelessHttp vs = Except.ok c.stateless_http ∧
    resolveJsonResponse vs = Except.ok c.json_response ∧
    resolveLogLevel vs = Except.ok c.log_level ∧
    resolveLogFormat vs = Except.ok c.log_format ∧
    resolveMaxQueryLength vs = Except.ok c.max_query_length ∧
    resolveMaxResultRows vs = Except.ok c.max_result_rows := by
  unfold buildConfig at h
  obtain ⟨v1, h1, h⟩ := andThen_ok _ _ _ h
  obtain ⟨v2, h2, h⟩ := andThen_ok _ _ _ h
  obtain ⟨v3, h3, h⟩ := andThen_ok _ _ _ h
  obtain ⟨v4, h4, h⟩ := andThen_ok _ _ _ h
  obtain ⟨v5, h5, h⟩ := andThen_ok _ _ _ h
  obtain ⟨v6, h6, h⟩ := andThen_ok _ _ _ h
  obtain ⟨v7, h7, h⟩ := andThen_ok _ _ _ h
  obtain ⟨v8, h8, h⟩ := andThen_ok _ _ _ h
  obtain ⟨v9, h9, h⟩ := andThen_ok _ _ _ h
  obtain ⟨v10, h10, h⟩ := andThen_ok _ _ _ h
  obtain ⟨v11, h11, h⟩ := andThen_ok _ _ _ h
  obtain ⟨v12, h12, h⟩ := andThen_ok _ _ _ h
  obtain ⟨v13, h13, h⟩ := andThen_ok _ _ _ h
  have hc : ServerConfig.mk v1 v2 v3 v4 v5 v6 v7 v8 v9 v10 v11 v12 v13 = c := by
    injection h
  rw [← hc]
  exact ⟨h1, h2, h3, h4, h5, h6, h7, h8, h9, h10, h11, h12, h13⟩

def configFieldNames : List String :=
  ["database_path", "metadata_path", "server_name", "server_version", "host", "port",
   "transport", "stateless_http", "json_response", "log_level", "log_format",
   "max_query_length", "max_result_rows"]

theorem buildConfig_err_field (vs : Values) (e : VErr)
    (h : buildConfig vs = Except.error e) : e.field ∈ configFieldNames := by
  unfold buildConfig at h
  rcases andThen_err _ _ _ h with h | ⟨v1, h1, h⟩
  · rw [withValidator_err _ _ _ _ h (fun e0 h0 => resolveStrRaw_err _ _ _ _ h0)]
    decide
  rcases andThen_err _ _ _ h with h | ⟨v2, h2, h⟩
  · rw [withValidator_err _ _ _ _ h (fun e0 h0 => resolveStrRaw_err _ _ _ _ h0)]
    decide
  rcases andThen_err _ _ _ h with h | ⟨v3, h3, h⟩
  · rw [resolveStrRaw_err _ _ _ _ h]
    decide
  rcases andThen_err _ _ _ h with h | ⟨v4, h4, h⟩
  · rw [resolveStrRaw_err _ _ _ _ h]
    decide
  rcases andThen_err _ _ _ h with h | ⟨v5, h5, h⟩
  · rw [resolveStrRaw_err _ _ _ _ h]
    decide
  rcases andThen_err _ _ _ h with h | ⟨v6, h6, h⟩
  · rw [withValidator_err _ _ _ _ h (fun e0 h0 => resolveIntRaw_err _ _ _ _ h0)]
    decide
  rcases andThen_err _ _ _ h with h | ⟨v7, h7, h⟩
  · rw [withValidator_err _ _ _ _ h (fun e0 h0 => resolveStrRaw_err _ _ _ _ h0)]
    decide
  rcases andThen_err _ _ _ h with h | ⟨v8, h8, h⟩
  · rw [resolveBoolRaw_err _ _ _ _ h]
    decide
  rcases andThen_err _ _ _ h with h | ⟨v9, h9, h⟩
  · rw [resolveBoolRaw_err _ _ _ _ h]
    decide
  rcases andThen_err _ _ _ h with h | ⟨v10, h10, h⟩
  · rw [withValidator_err _ _ _ _ h (fun e0 h0 => resolveStrRaw_err _ _ _ _ h0)]
    decide
  rcases andThen_err _ _ _ h with h | ⟨v11, h11, h⟩
  · rw [resolveStrRaw_err _ _ _ _ h]
    decide
  rcases andThen_err _ _ _ h with h | ⟨v12, h12, h⟩
  · rw [withValidator_err _ _ _ _ h (fun e0 h0 => resolveIntRaw_err _ _ _ _ h0)]
    decide
  rcases andThen_err _ _ _ h with h | ⟨v13, h13, h⟩
  · rw [withValidator_err _ _ _ _ h (fun e0 h0 => resolveIntRaw_err _ _ _ _ h0)]
    decide
  exact Except.noConfusion h

/-- Every constraint of the settings record, as stated by the data model:
non-empty paths, port in 1..65535, transport one of the three literals,
log level one of the five canonical uppercase names (hence fixed by
uppercasing), positive query limits. -/
def ConfigValid (c : ServerConfig) : Prop :=
  c.database_path ≠ "" ∧ c.metadata_path ≠ "" ∧
  (1 ≤ c.port ∧ c.port ≤ 65535) ∧
  c.transport ∈ validTransports ∧
  (c.log_level ∈ validLogLevels ∧ pyUpper c.log_level = c.log_level) ∧
  0 < c.max_query_length ∧ 0 < c.max_result_rows

theorem buildConfig_ok_valid (vs : Values) (c : ServerConfig)
    (h : buildConfig vs = Except.ok c) : ConfigValid c := by
  obtain ⟨hdb, hmd, _, _, _, hpt, htr, _, _, hll, _, hql, hrr⟩ := buildConfig_ok_inv vs c h
  obtain ⟨r1, _, hv1⟩ := withValidator_ok _ _ _ _ hdb
  obtain ⟨he1, hne1⟩ := validate_database_path_ok r1 _ hv1
  obtain ⟨r2, _, hv2⟩ := withValidator_ok _ _ _ _ hmd
  obtain ⟨he2, hne2⟩ := validate_metadata_path_ok r2 _ hv2
  obtain ⟨r6, _, hv6⟩ := withValidator_ok _ _ _ _ hpt
  obtain ⟨he6, hr6⟩ := validate_port_ok r6 _ hv6
  obtain ⟨r7, _, hv7⟩ := withValidator_ok _ _ _ _ htr
  obtain ⟨he7, hm7⟩ := validate_transport_ok r7 _ hv7
  obtain ⟨r10, _, hv10⟩ := withValidator_ok _ _ _ _ hll
  obtain ⟨he10, hm10⟩ := validate_log_level_ok r10 _ hv10
  obtain ⟨r12, _, hv12⟩ := withValidator_ok _ _ _ _ hql
  obtain ⟨he12, hp12⟩ := validate_max_query_length_ok r12 _ hv12
  obtain ⟨r13, _, hv13⟩ := withValidator_ok _ _ _ _ hrr
  obtain ⟨he13, hp13⟩ := validate_max_result_rows_ok r13 _ hv13
  have hupfix : ∀ l ∈ validLogLevels, pyUpper l = l := by decide
  refine ⟨?_, ?_, ?_, ?_, ⟨?_, ?_⟩, ?_, ?_⟩
  · rw [he1]; exact hne1
  · rw [he2]; exact hne2
  · rw [he6]; exact hr6
  · rw [he7]; exact hm7
  · rw [he10]; exact hm10
  · rw [he10]; exact hupfix _ hm10
  · rw [he12]; exact hp12
  · rw [he13]; exact hp13

/-! ### Claims about settings construction -/

/-- C5: settings construction is all-or-nothing: for every input values
mapping, construction either yields a record in which every field satisfies
its declared constraint (ConfigValid: non-empty paths, port 1..65535,
transport one of the three literals, canonical uppercase log level,
positive query limits), or fails with a validation error whose field name
is one of the settings fields; no partially-valid record is produced, since
the only success value is the fully validated record. -/
theorem c5_construction_all_or_nothing (vs : Values) :
    match buildConfig vs with
    | Except.ok c => ConfigValid c
    | Except.error e => e.field ∈ configFieldNames := by
  cases h : buildConfig vs with
  | ok c => exact buildConfig_ok_valid vs c h
  | error e => exact buildConfig_err_field vs e h

/-- C7: for every log-level input string: when its uppercasing is one of
the five standard severity names (equivalently, when it case-insensitively
matches one), the validator accepts and the constructed record stores the
canonical uppercase form; otherwise settings construction fails. -/
theorem c7_log_level_case_insensitive (vs : Values) (v : String)
    (hv : lookupVal vs "log_level" = some (PyVal.s v)) :
    ((∃ l ∈ validLogLevels, pyUpper v = l) →
       validate_log_level v = Except.ok (pyUpper v) ∧
       ∀ c, buildConfig vs = Except.ok c → c.log_level = pyUpper v) ∧
    ((¬ ∃ l ∈ validLogLevels, pyUpper v = l) →
       (∃ m, validate_log_level v = Except.error m) ∧
       ∀ c, buildConfig vs ≠ Except.ok c) := by
  have hiff : (∃ l ∈ validLogLevels, pyUpper v = l) ↔ pyUpper v ∈ validLogLevels := by
    constructor
    · rintro ⟨l, hl, he⟩
      rw [he]
      exact hl
    · intro hm
      exact ⟨pyUpper v, hm, rfl⟩
  constructor
  · intro hex
    have hm := hiff.mp hex
    have hok : validate_log_level v = Except.ok (pyUpper v) := by
      unfold validate_log_level
      rw [if_pos hm]
    refine ⟨hok, ?_⟩
    intro c hc
    have hll := (buildConfig_ok_inv vs c hc).2.2.2.2.2.2.2.2.2.1
    unfold resolveLogLevel at hll
    rw [resolveStrRaw_of_lookup vs _ _ v hv] at hll
    rw [show withValidator (Except.ok v) "log_level" validate_log_level =
        (validate_log_level v).mapError (VErr.mk "log_level") from rfl, hok] at hll
    have : pyUpper v = c.log_level := by injection hll
    rw [this]
  · intro hnex
    have hm : ¬ pyUpper v ∈ validLogLevels := fun hmm => hnex (hiff.mpr hmm)
    have herr : validate_log_level v =
        Except.error "log_level must be one of DEBUG, INFO, WARNING, ERROR, CRITICAL" := by
      unfold validate_log_level
      rw [if_neg hm]
    refine ⟨⟨_, herr⟩, ?_⟩
    intro c hc
    have hll := (buildConfig_ok_inv vs c hc).2.2.2.2.2.2.2.2.2.1
    unfold resolveLogLevel at hll
    rw [resolveStrRaw_of_lookup vs _ _ v hv] at hll
    rw [show withValidator (Except.ok v) "log_level" validate_log_level =
        (validate_log_level v).mapError (VErr.mk "log_level") from rfl, herr] at hll
    exact Except.noConfusion hll

def c7vs : Values := [("log_level", PyVal.s "debug")]

/-- C7 witness: the input "debug" case-insensitively matches DEBUG, the
validator stores the uppercase form, and any record constructed from these
values stores DEBUG. -/
theorem c7_witness :
    lookupVal c7vs "log_level" = some (PyVal.s "debug") ∧
    (∃ l ∈ validLogLevels, pyUpper "debug" = l) ∧
    validate_log_level "debug" = Except.ok (pyUpper "debug") ∧
    (∀ c, buildConfig c7vs = Except.ok c → c.log_level = pyUpper "debug") := by
  refine ⟨by decide, ⟨"DEBUG", by decide, by decide⟩, ?_, ?_⟩
  · exact ((c7_log_level_case_insensitive c7vs "debug" (by decide)).1
      ⟨"DEBUG", by decide, by decide⟩).1
  · exact ((c7_log_level_case_insensitive c7vs "debug" (by decide)).1
      ⟨"DEBUG", by decide, by decide⟩).2

/-- C9: transport validation is case-sensitive: every string that differs
from one of the three recognized transports only in letter case (and is not
equal to it) is rejected by the validator, and settings construction from
any values mapping holding it as the transport fails — even though the
log-level validator accepts any letter case for its recognized values. -/
theorem c9_transport_case_sensitive :
    (∀ v t, t ∈ validTransports → pyLower v = pyLower t → v ≠ t →
       validate_transport v =
         Except.error "transport must be one of stdio, sse, streamable-http" ∧
       ∀ (vs : Values), lookupVal vs "transport" = some (PyVal.s v) →
         ∀ c, buildConfig vs ≠ Except.ok c) ∧
    (∀ l, pyUpper l ∈ validLogLevels → validate_log_level l = Except.ok (pyUpper l)) := by
  constructor
  · intro v t ht hlow hne
    have hv : ¬ v ∈ validTransports := by
      intro hvm
      simp only [validTransports, List.mem_cons, List.mem_singleton,
        List.not_mem_nil, or_false] at hvm ht
      rcases hvm with rfl | rfl | rfl <;> rcases ht with rfl | rfl | rfl <;>
        first
        | exact hne rfl
        | exact absurd hlow (by decide)
    have herr : validate_transport v =
        Except.error "transport must be one of stdio, sse, streamable-http" := by
      unfold validate_transport
      rw [if_neg hv]
    refine ⟨herr, ?_⟩
    intro vs hlk c hc
    have htr := (buildConfig_ok_inv vs c hc).2.2.2.2.2.2.1
    unfold resolveTransport at htr
    rw [resolveStrRaw_of_lookup vs _ _ v hlk] at htr
    rw [show withValidator (Except.ok v) "transport" validate_transport =
        (validate_transport v).mapError (VErr.mk "transport") from rfl, herr] at htr
    exact Except.noConfusion htr
  · intro l hm
    unfold validate_log_level
    rw [if_pos hm]

/-- C9 witness: "STDIO" differs from "stdio" only in letter case and is
rejected, construction from transport=STDIO fails, while log level "debug"
is accepted in lowercase. -/
theorem c9_witness :
    ("stdio" ∈ validTransports ∧ pyLower "STDIO" = pyLower "stdio" ∧ "STDIO" ≠ "stdio") ∧
    validate_transport "STDIO" =
      Except.error "transport must be one of stdio, sse, streamable-http" ∧
    (∀ c, buildConfig [("transport", PyVal.s "STDIO")] ≠ Except.ok c) ∧
    validate_log_level "debug" = Except.ok "DEBUG" := by
  refine ⟨⟨by decide, by decide, by decide⟩, ?_, ?_, ?_⟩
  · exact (c9_transport_case_sensitive.1 "STDIO" "stdio" (by decide) (by decide)
      (by decide)).1
  · exact (c9_transport_case_sensitive.1 "STDIO" "stdio" (by decide) (by decide)
      (by decide)).2 _ (by decide)
  · have hd := c9_transport_case_sensitive.2 "debug" (by decide)
    rw [show pyUpper "debug" = "DEBUG" from by decide] at hd
    exact hd

/-- C8: for every configured path and every base directory, both
path-resolution operations return the configured path unchanged when it is
already absolute, and otherwise return it joined to the base directory,
which defaults to the given current working directory when no base is
passed. -/
theorem c8_path_resolution (c : ServerConfig) (base cwd : String) :
    (pathIsAbsolute c.database_path = true →
       get_absolute_database_path c none cwd = c.database_path ∧
       get_absolute_database_path c (some base) cwd = c.database_path) ∧
    (pathIsAbsolute c.database_path = false →
       get_absolute_database_path c none cwd = pathJoin cwd c.database_path ∧
       get_absolute_database_path c (some base) cwd = pathJoin base c.database_path) ∧
    (pathIsAbsolute c.metadata_path = true →
       get_absolute_metadata_path c none cwd = c.metadata_path ∧
       get_absolute_metadata_path c (some base) cwd = c.metadata_path) ∧
    (pathIsAbsolute c.metadata_path = false →
       get_absolute_metadata_path c none cwd = pathJoin cwd c.metadata_path ∧
       get_absolute_metadata_path c (some base) cwd = pathJoin base c.metadata_path) := by
  refine ⟨fun h => ⟨?_, ?_⟩, fun h => ⟨?_, ?_⟩, fun h => ⟨?_, ?_⟩, fun h => ⟨?_, ?_⟩⟩ <;>
    simp [get_absolute_database_path, get_absolute_metadata_path, h, Option.getD]

def c8cfg : ServerConfig :=
  { database_path := "/var/lib/app/sample.db"
    metadata_path := "resources/metadata.json"
    server_name := "moba-mcp"
    server_version := "0.1.0"
    host := "localhost"
    port := 8000
    transport := "stdio"
    stateless_http := false
    json_response := false
    log_level := "INFO"
    log_format := "fmt"
    max_query_length := 10000
    max_result_rows := 1000 }

/-- C8 witness: an absolute store path is returned unchanged even when a
base is given, and a relative metadata path resolves against the base
directory /srv/app to /srv/app/resources/metadata.json. -/
theorem c8_witness :
    pathIsAbsolute c8cfg.database_path = true ∧
    get_absolute_database_path c8cfg (some "/srv/app") "/cwd" = "/var/lib/app/sample.db" ∧
    pathIsAbsolute c8cfg.metadata_path = false ∧
    get_absolute_metadata_path c8cfg (some "/srv/app") "/cwd" =
      "/srv/app/resources/metadata.json" := by
  refine ⟨by decide, ?_, by decide, ?_⟩
  · exact ((c8_path_resolution c8cfg "/srv/app" "/cwd").1 (by decide)).2
  · exact (((c8_path_resolution c8cfg "/srv/app" "/cwd").2.2.2 (by decide)).2).trans (by decide)

end Moba
